import Mathlib

/-!
Shallow embedding of the process-watchdog core of `PickerHost.py`
(the `App` scheduler state machine, `safe_kill`, and `find_pickerhost`),
together with theorems settling the specification claims about it.

The scheduler's interaction with the OS (probe results, kill outcomes,
admin status, wall-clock time) is modelled by passing those observations
as explicit inputs to each transition function, exactly where the Python
code obtains them from the environment.
-/

namespace PickerHost

/-- Constant from the source: `PROC_NAME = "pickerhost.exe"`. -/
def PROC_NAME : String := "pickerhost.exe"

/-- Constant from the source: `SCAN_MS_MIN = 400`. -/
def SCAN_MS_MIN : Nat := 400

/-- Constant from the source: `SCAN_MS_NORMAL = 2000`. -/
def SCAN_MS_NORMAL : Nat := 2000

/-- Constant from the source: `SCAN_MS_MAX = 15000`. -/
def SCAN_MS_MAX : Nat := 15000

/-- Constant from the source: `RECHECK_MS = 300`. -/
def RECHECK_MS : Nat := 300

/-- Constant from the source: `BACKOFF_STEP = 2000`. -/
def BACKOFF_STEP : Nat := 2000

/-- Constant from the source: `FAIL_BACKOFF_MAX = 12000`. -/
def FAIL_BACKOFF_MAX : Nat := 12000

/-- Character-list prefix test (helper for the substring test below). -/
def starts_with : List Char → List Char → Bool
  | [], _ => true
  | _ :: _, [] => false
  | c :: cs, d :: ds => c = d && starts_with cs ds

/-- Substring occurrence over character lists. -/
def has_sub (needle : List Char) : List Char → Bool
  | [] => needle.isEmpty
  | c :: rest => starts_with needle (c :: rest) || has_sub needle rest

/-- The Python `needle in hay` substring test, as used in
`_set_fail_backoff` for `"access denied" in how`. -/
def str_contains (hay needle : String) : Bool :=
  has_sub needle.data hay.data

/-! ## Terminator: `safe_kill`

`safe_kill(proc)` runs terminate / wait / kill / wait under a try/except
ladder.  Each OS call's behaviour on the concrete process is an input:
`CallRes` for `proc.terminate()` / `proc.kill()` (which either succeed or
raise), `WaitRes` for `proc.wait(timeout=KILL_WAIT)` (which additionally
may raise `TimeoutExpired`, the only exception caught *inside* the inner
try blocks; all others propagate to the outer handlers). -/

/-- Outcome of `proc.terminate()` or `proc.kill()`. -/
inductive CallRes where
  | ok : CallRes
  | noSuchProcess : CallRes
  | accessDenied : CallRes
  | otherError (msg : String) : CallRes
deriving DecidableEq, Repr

/-- Outcome of `proc.wait(timeout=KILL_WAIT)`. -/
inductive WaitRes where
  | exited : WaitRes
  | timedOut : WaitRes
  | noSuchProcess : WaitRes
  | accessDenied : WaitRes
  | otherError (msg : String) : WaitRes
deriving DecidableEq, Repr

/-- `safe_kill` from the source, with the behaviour of the four OS calls
(terminate, first wait, kill, second wait) passed in.  Returns the
`(ok, how)` pair the Python function returns; exceptions other than the
inner `TimeoutExpired` fall through to the outer `except` clauses. -/
def safe_kill (term : CallRes) (w1 : WaitRes) (k : CallRes) (w2 : WaitRes) :
    Bool × String :=
  match term with
  | .noSuchProcess => (true, "gone")
  | .accessDenied => (false, "access denied")
  | .otherError m => (false, "error: " ++ m)
  | .ok =>
    match w1 with
    | .exited => (true, "terminated")
    | .noSuchProcess => (true, "gone")
    | .accessDenied => (false, "access denied")
    | .otherError m => (false, "error: " ++ m)
    | .timedOut =>
      match k with
      | .noSuchProcess => (true, "gone")
      | .accessDenied => (false, "access denied")
      | .otherError m => (false, "error: " ++ m)
      | .ok =>
        match w2 with
        | .exited => (true, "killed")
        | .noSuchProcess => (true, "gone")
        | .accessDenied => (false, "access denied")
        | .otherError m => (false, "error: " ++ m)
        | .timedOut => (false, "timeout")

/-! ## ProcessProbe: `find_pickerhost`

The process table is an input: either the whole enumeration raises
(`Except.error`), or it yields a list of entries, each of which either
raises `psutil.Error` when its `name` info is read, or yields
`proc.info.get("name")` (an optional string). -/

/-- One entry of `psutil.process_iter(["name"])`: reading its name either
raises `psutil.Error` or yields an optional name string. -/
abbrev ProcEntry : Type := Except Unit (Option String)

/-- Loop body of `find_pickerhost`: a raising entry is skipped
(`except psutil.Error: continue`), a falsy or non-matching name is passed
over, the first case-insensitive match of `PROC_NAME` is returned. -/
def find_loop : List ProcEntry → Option String
  | [] => none
  | e :: rest =>
    match e with
    | .error _ => find_loop rest
    | .ok none => find_loop rest
    | .ok (some n) =>
      if n.toLower = PROC_NAME then some n else find_loop rest

/-- `find_pickerhost` from the source: a failing whole enumeration
(`except psutil.Error: return None`) yields `none`; otherwise the loop
scans the entries. -/
def find_pickerhost (tbl : Except Unit (List ProcEntry)) : Option String :=
  match tbl with
  | .error _ => none
  | .ok entries => find_loop entries

/-! ## WatchdogScheduler: the `App` state machine

The mutable scheduler fields of `App`, and the transition methods
`tick`, `_handle_detect`, `fix_now`, with their helpers.  Status reports
(`set_state` calls) are returned as an optional `(text, lamp, tray)`
triple, and each evaluation also reports whether `safe_kill` was invoked
(`killed`), so that claims about the Terminator being called are
expressible.  The probe result and the kill outcome are inputs, as is
`is_admin()` and the current wall-clock time in milliseconds. -/

/-- The scheduler-relevant mutable fields of `App`. -/
structure AppState where
  monitoring : Bool
  scan_interval : Nat
  fail_backoff_ms : Nat
  cooldown_until_ms : Nat
deriving DecidableEq, Repr

/-- Result of one transition evaluation: the new state, the status report
issued by `set_state` (if any), and whether `safe_kill` was invoked. -/
structure EvalOut where
  state : AppState
  status : Option (String × String × String)
  killed : Bool
deriving DecidableEq, Repr

/-- `App.__init__` scheduler fields: `scan_interval = SCAN_MS_NORMAL`,
`fail_backoff_ms = 0`, `cooldown_until_ms = 0`; `monitoring` is loaded
from settings and is a parameter here. -/
def initState (monitoring : Bool) : AppState :=
  { monitoring := monitoring
    scan_interval := SCAN_MS_NORMAL
    fail_backoff_ms := 0
    cooldown_until_ms := 0 }

/-- `App._apply_interval`: clamp into `[SCAN_MS_MIN, SCAN_MS_MAX]` and
store (the guarded `timer.setInterval` only avoids a redundant OS call;
the stored value is the clamped one either way). -/
def apply_interval (s : AppState) (ms : Nat) : AppState :=
  { s with scan_interval := max SCAN_MS_MIN (min SCAN_MS_MAX ms) }

/-- `App._set_burst`: cooldown deadline `now + RECHECK_MS`, interval to
`SCAN_MS_MIN`. -/
def set_burst (s : AppState) (now_ms : Nat) : AppState :=
  apply_interval { s with cooldown_until_ms := now_ms + RECHECK_MS } SCAN_MS_MIN

/-- `App._set_quiet`: interval back to `SCAN_MS_NORMAL`. -/
def set_quiet (s : AppState) : AppState :=
  apply_interval s SCAN_MS_NORMAL

/-- `App._grow_quiet`: interval grows by `BACKOFF_STEP`, capped at
`SCAN_MS_MAX`. -/
def grow_quiet (s : AppState) : AppState :=
  apply_interval s (min SCAN_MS_MAX (s.scan_interval + BACKOFF_STEP))

/-- The status message chosen by `App._set_fail_backoff`. -/
def fail_status (how : String) (admin : Bool) : String × String × String :=
  if str_contains how "access denied" && !admin then
    ("Access denied — try Run as Administrator", "orange", "orange")
  else
    ("Kill failed: " ++ how, "orange", "orange")

/-- `App._set_fail_backoff`: report the failure, arm
`fail_backoff_ms = min(FAIL_BACKOFF_MAX, max(1500, scan_interval*2))`,
then double the interval (capped at `SCAN_MS_MAX`), both computed from
the interval in effect before the call. -/
def set_fail_backoff (s : AppState) (how : String) (admin : Bool) :
    AppState × (String × String × String) :=
  let s1 := { s with
    fail_backoff_ms := min FAIL_BACKOFF_MAX (max 1500 (s.scan_interval * 2)) }
  (apply_interval s1 (min (s.scan_interval * 2) SCAN_MS_MAX), fail_status how admin)

/-- `App.tick`: skip while `now < cooldown_until_ms`; while a failure
backoff is armed, decrement it by the nominal interval and skip if still
positive; otherwise probe, and branch on presence, the monitoring flag
and the kill outcome.  `found` is the probe result, `kr` the `safe_kill`
result used when the kill happens, `admin` is `is_admin()`. -/
def tick (s : AppState) (now_ms : Nat) (found : Bool) (kr : Bool × String)
    (admin : Bool) : EvalOut :=
  if now_ms < s.cooldown_until_ms then
    { state := s, status := none, killed := false }
  else if s.fail_backoff_ms ≠ 0 ∧ s.scan_interval < s.fail_backoff_ms then
    { state := { s with fail_backoff_ms := s.fail_backoff_ms - s.scan_interval }
      status := none, killed := false }
  else
    let s := { s with fail_backoff_ms := 0 }
    if found then
      if !s.monitoring then
        { state := grow_quiet s
          status := some ("PickerHost.exe detected (not killing)", "orange", "orange")
          killed := false }
      else if kr.1 then
        { state := set_burst s now_ms
          status := some ("PickerHost.exe detected & auto-killed", "red", "red")
          killed := true }
      else
        let (s2, msg) := set_fail_backoff s kr.2 admin
        { state := s2, status := some msg, killed := true }
    else
      { state := grow_quiet s
        status := some ("PickerHost.exe not running", "green", "green")
        killed := false }

/-- `App._handle_detect` (the event-driven check posted by the WMI
watcher): when monitoring is off, report only (no probe); otherwise probe
immediately — no cooldown or backoff gate — and branch on the outcome. -/
def handle_detect (s : AppState) (now_ms : Nat) (found : Bool)
    (kr : Bool × String) (admin : Bool) : EvalOut :=
  if !s.monitoring then
    { state := s
      status := some ("PickerHost.exe detected (not killing)", "orange", "orange")
      killed := false }
  else if !found then
    { state := set_quiet s
      status := some ("PickerHost.exe vanished", "green", "green")
      killed := false }
  else if kr.1 then
    { state := set_burst s now_ms
      status := some ("PickerHost.exe detected & auto-killed", "red", "red")
      killed := true }
  else
    let (s2, msg) := set_fail_backoff s kr.2 admin
    { state := s2, status := some msg, killed := true }

/-- `App.fix_now` (the manual force-check): probe unconditionally — no
cooldown, backoff, or monitoring gate — reset to quiet when absent, kill
when present. -/
def fix_now (s : AppState) (now_ms : Nat) (found : Bool) (kr : Bool × String)
    (admin : Bool) : EvalOut :=
  if !found then
    { state := set_quiet s
      status := some ("PickerHost.exe not running", "green", "green")
      killed := false }
  else if kr.1 then
    { state := set_burst s now_ms
      status := some ("PickerHost.exe " ++ kr.2 ++ " (manual)", "blue", "blue")
      killed := true }
  else
    let (s2, msg) := set_fail_backoff s kr.2 admin
    { state := s2, status := some msg, killed := true }

/-- One transition evaluation of any of the three kinds, with its
environment observations. -/
inductive Ev where
  | timerTick (now_ms : Nat) (found : Bool) (kr : Bool × String) (admin : Bool)
  | eventCheck (now_ms : Nat) (found : Bool) (kr : Bool × String) (admin : Bool)
  | forceCheck (now_ms : Nat) (found : Bool) (kr : Bool × String) (admin : Bool)
deriving Repr

/-- State reached after one evaluation. -/
def stepEv (s : AppState) (e : Ev) : AppState :=
  match e with
  | .timerTick now found kr admin => (tick s now found kr admin).state
  | .eventCheck now found kr admin => (handle_detect s now found kr admin).state
  | .forceCheck now found kr admin => (fix_now s now found kr admin).state

/-- State reached after a sequence of evaluations. -/
def runEvs (s : AppState) (evs : List Ev) : AppState :=
  evs.foldl stepEv s

/-- Poll interval in effect at each of `n` consecutive timer ticks that
find the target absent (the observation for the quiet-growth scenario). -/
def quiet_trace : Nat → AppState → List Nat
  | 0, _ => []
  | n + 1, s =>
    s.scan_interval :: quiet_trace n (tick s s.cooldown_until_ms false (true, "") false).state

end PickerHost

namespace PickerHost

/-! ## Helper lemmas -/

/-- Every interval stored through `_apply_interval` lies in
`[SCAN_MS_MIN, SCAN_MS_MAX]`. -/
lemma apply_interval_bounds (s : AppState) (ms : Nat) :
    SCAN_MS_MIN ≤ (apply_interval s ms).scan_interval ∧
      (apply_interval s ms).scan_interval ≤ SCAN_MS_MAX := by
  simp only [apply_interval, SCAN_MS_MIN, SCAN_MS_MAX]
  omega

/-- Interval-bound predicate used as the step invariant. -/
def interval_ok (s : AppState) : Prop :=
  SCAN_MS_MIN ≤ s.scan_interval ∧ s.scan_interval ≤ SCAN_MS_MAX

lemma interval_ok_apply (s : AppState) (ms : Nat) :
    interval_ok (apply_interval s ms) := apply_interval_bounds s ms

lemma tick_interval_ok (s : AppState) (now : Nat) (found : Bool)
    (kr : Bool × String) (admin : Bool) (h : interval_ok s) :
    interval_ok ((tick s now found kr admin).state) := by
  unfold tick
  split
  · exact h
  · split
    · exact h
    · dsimp only
      split
      · split
        · exact interval_ok_apply _ _
        · split
          · exact interval_ok_apply _ _
          · simp only [set_fail_backoff]
            exact interval_ok_apply _ _
      · exact interval_ok_apply _ _

lemma handle_detect_interval_ok (s : AppState) (now : Nat) (found : Bool)
    (kr : Bool × String) (admin : Bool) (h : interval_ok s) :
    interval_ok ((handle_detect s now found kr admin).state) := by
  unfold handle_detect
  split
  · exact h
  · split
    · exact interval_ok_apply _ _
    · split
      · exact interval_ok_apply _ _
      · simp only [set_fail_backoff]
        exact interval_ok_apply _ _

lemma fix_now_interval_ok (s : AppState) (now : Nat) (found : Bool)
    (kr : Bool × String) (admin : Bool) :
    interval_ok ((fix_now s now found kr admin).state) := by
  unfold fix_now
  split
  · exact interval_ok_apply _ _
  · split
    · exact interval_ok_apply _ _
    · simp only [set_fail_backoff]
      exact interval_ok_apply _ _

lemma stepEv_interval_ok (s : AppState) (e : Ev) (h : interval_ok s) :
    interval_ok (stepEv s e) := by
  cases e with
  | timerTick now found kr admin => exact tick_interval_ok s now found kr admin h
  | eventCheck now found kr admin => exact handle_detect_interval_ok s now found kr admin h
  | forceCheck now found kr admin => exact fix_now_interval_ok s now found kr admin

lemma runEvs_interval_ok (evs : List Ev) (s : AppState) (h : interval_ok s) :
    interval_ok (runEvs s evs) := by
  induction evs generalizing s with
  | nil => exact h
  | cons e evs ih =>
    simp only [runEvs, List.foldl_cons] at *
    exact ih _ (stepEv_interval_ok s e h)

/-! ## Claims -/

/-- Claim C1: for every sequence of transition evaluations (timer ticks,
event-driven checks, and manual force-checks) and every sequence of
probe/termination outcomes, the poll interval remains within
`[SCAN_MS_MIN = 400, SCAN_MS_MAX = 15000]` after each evaluation,
starting from `SCAN_MS_NORMAL = 2000`. -/
theorem interval_always_in_bounds (mon : Bool) (evs : List Ev) :
    SCAN_MS_MIN ≤ (runEvs (initState mon) evs).scan_interval ∧
      (runEvs (initState mon) evs).scan_interval ≤ SCAN_MS_MAX := by
  refine runEvs_interval_ok evs (initState mon) ?_
  constructor <;> simp [initState, interval_ok, SCAN_MS_NORMAL, SCAN_MS_MIN, SCAN_MS_MAX]

/-- Claim C6: ten consecutive absent-target timer ticks from the initial
state observe the interval sequence
2000, 4000, 6000, 8000, 10000, 12000, 14000, 15000, 15000, 15000. -/
theorem quiet_growth_trace :
    quiet_trace 10 (initState true) =
      [2000, 4000, 6000, 8000, 10000, 12000, 14000, 15000, 15000, 15000] := by
  decide

/-- Claim C7: whenever the process is already gone before or during the
termination attempt — `NoSuchProcess` raised by the terminate call, the
first wait, the kill call, or the second wait — `safe_kill` returns the
success outcome `(true, "gone")`, never a failure or an exception. -/
theorem safe_kill_gone (term : CallRes) (w1 : WaitRes) (k : CallRes) (w2 : WaitRes)
    (h : term = .noSuchProcess ∨
         (term = .ok ∧ w1 = .noSuchProcess) ∨
         (term = .ok ∧ w1 = .timedOut ∧ k = .noSuchProcess) ∨
         (term = .ok ∧ w1 = .timedOut ∧ k = .ok ∧ w2 = .noSuchProcess)) :
    safe_kill term w1 k w2 = (true, "gone") := by
  rcases h with h | ⟨h1, h2⟩ | ⟨h1, h2, h3⟩ | ⟨h1, h2, h3, h4⟩ <;> subst_vars <;> rfl

/-- Witness for C7: the process vanishes at the kill step and the outcome
is `(true, "gone")`. -/
theorem safe_kill_gone_witness :
    safe_kill .ok .timedOut .noSuchProcess .exited = (true, "gone") :=
  safe_kill_gone _ _ _ _ (Or.inr (Or.inr (Or.inl ⟨rfl, rfl, rfl⟩)))

end PickerHost

namespace PickerHost

/-- A timer tick arriving strictly before the cooldown deadline performs
no probe and changes nothing. -/
lemma tick_cooldown_noop (s : AppState) (now : Nat) (f : Bool)
    (kr : Bool × String) (a : Bool) (h : now < s.cooldown_until_ms) :
    tick s now f kr a = { state := s, status := none, killed := false } := by
  unfold tick
  rw [if_pos h]

/-- Effect of `_set_fail_backoff` on the scheduler fields: backoff armed
to `min(12000, max(1500, 2 * interval_before))`, interval doubled and
capped at 15000. -/
lemma set_fail_backoff_spec (s : AppState) (how : String) (admin : Bool)
    (hi : SCAN_MS_MIN ≤ s.scan_interval) :
    (set_fail_backoff s how admin).1.fail_backoff_ms =
      min 12000 (max 1500 (2 * s.scan_interval)) ∧
    (set_fail_backoff s how admin).1.scan_interval =
      min (2 * s.scan_interval) 15000 := by
  simp only [set_fail_backoff, apply_interval, FAIL_BACKOFF_MAX,
    SCAN_MS_MIN, SCAN_MS_MAX] at *
  constructor <;> omega

/-- Claim C2: whenever a termination attempt fails — on a timer tick
(with its cooldown and backoff gates passing and monitoring enabled), on
an event-driven check (monitoring enabled), or on a manual force-check —
the failure backoff is armed to exactly
`min(12000, max(1500, 2 * interval_before))` and the poll interval
becomes `min(2 * interval_before, 15000)`, where `interval_before` is the
interval in effect before the failure. -/
theorem failure_arms_backoff (s : AppState) (now : Nat)
    (kr : Bool × String) (admin : Bool)
    (hk : kr.1 = false) (hi : SCAN_MS_MIN ≤ s.scan_interval) :
    (s.cooldown_until_ms ≤ now → s.fail_backoff_ms = 0 → s.monitoring = true →
      (tick s now true kr admin).state.fail_backoff_ms =
        min 12000 (max 1500 (2 * s.scan_interval)) ∧
      (tick s now true kr admin).state.scan_interval =
        min (2 * s.scan_interval) 15000) ∧
    (s.monitoring = true →
      (handle_detect s now true kr admin).state.fail_backoff_ms =
        min 12000 (max 1500 (2 * s.scan_interval)) ∧
      (handle_detect s now true kr admin).state.scan_interval =
        min (2 * s.scan_interval) 15000) ∧
    ((fix_now s now true kr admin).state.fail_backoff_ms =
        min 12000 (max 1500 (2 * s.scan_interval)) ∧
      (fix_now s now true kr admin).state.scan_interval =
        min (2 * s.scan_interval) 15000) := by
  refine ⟨?_, ?_, ?_⟩
  · intro hc hb hm
    have hnc : ¬ now < s.cooldown_until_ms := by omega
    have heq : (tick s now true kr admin).state =
        (set_fail_backoff { s with fail_backoff_ms := 0 } kr.2 admin).1 := by
      simp [tick, hnc, hb, hm, hk]
    rw [heq]
    exact set_fail_backoff_spec { s with fail_backoff_ms := 0 } kr.2 admin hi
  · intro hm
    have heq : (handle_detect s now true kr admin).state =
        (set_fail_backoff s kr.2 admin).1 := by
      simp [handle_detect, hm, hk]
    rw [heq]
    exact set_fail_backoff_spec s kr.2 admin hi
  · have heq : (fix_now s now true kr admin).state =
        (set_fail_backoff s kr.2 admin).1 := by
      simp [fix_now, hk]
    rw [heq]
    exact set_fail_backoff_spec s kr.2 admin hi

/-- Witness for C2: a failed kill at the initial interval 2000, on a
timer tick, arms backoff 4000 and doubles the interval to 4000. -/
theorem failure_arms_backoff_witness :
    (tick (initState true) 5 true (false, "access denied") false).state.fail_backoff_ms = 4000 ∧
    (tick (initState true) 5 true (false, "access denied") false).state.scan_interval = 4000 := by
  have h := (failure_arms_backoff (initState true) 5 (false, "access denied")
    false rfl (by decide)).1 (by decide) rfl rfl
  refine ⟨?_, ?_⟩
  · rw [h.1]; decide
  · rw [h.2]; decide

/-- Claim C3 counterexample: after a successful termination at time 0 the
interval is 400 and the cooldown deadline is 300, but the next timer tick
fires one full interval (400 ms) later, past the deadline: it is not
suppressed (it probes and reports), so zero scans — not exactly one — are
suppressed by the cooldown window. -/
theorem burst_suppresses_exactly_one_cex :
    ((tick (initState true) 0 true (true, "terminated") false).state.scan_interval = 400) ∧
    ((tick (initState true) 0 true (true, "terminated") false).state.cooldown_until_ms = 300) ∧
    (¬ (0 + 400 < (tick (initState true) 0 true (true, "terminated") false).state.cooldown_until_ms)) ∧
    ((tick (tick (initState true) 0 true (true, "terminated") false).state
        400 false (true, "") false).status ≠ none) := by
  decide

/-- Effect of `_set_burst` on the scheduler fields: interval snaps to
`SCAN_MS_MIN`, cooldown deadline becomes `now + RECHECK_MS`. -/
lemma set_burst_spec (s : AppState) (now : Nat) :
    (set_burst s now).scan_interval = SCAN_MS_MIN ∧
    (set_burst s now).cooldown_until_ms = now + RECHECK_MS := by
  simp [set_burst, apply_interval, SCAN_MS_MIN, SCAN_MS_MAX]

/-- Claim C3 as amended: after every successful termination — on a timer
tick (gates passing, monitoring enabled), an event-driven check
(monitoring enabled), or a manual force-check — the poll interval equals
`SCAN_MS_MIN = 400` and the cooldown deadline is
`now + RECHECK_MS = now + 300`; every timer tick arriving strictly before
that deadline performs no probe and changes nothing.  The number of scans
suppressed equals the number of ticks that arrive inside the window,
which may be zero rather than exactly one. -/
theorem burst_after_success (s : AppState) (now : Nat) (kr : Bool × String)
    (admin : Bool) (hk : kr.1 = true) :
    (s.cooldown_until_ms ≤ now → s.fail_backoff_ms = 0 → s.monitoring = true →
      (tick s now true kr admin).state.scan_interval = SCAN_MS_MIN ∧
      (tick s now true kr admin).state.cooldown_until_ms = now + RECHECK_MS) ∧
    (s.monitoring = true →
      (handle_detect s now true kr admin).state.scan_interval = SCAN_MS_MIN ∧
      (handle_detect s now true kr admin).state.cooldown_until_ms = now + RECHECK_MS) ∧
    ((fix_now s now true kr admin).state.scan_interval = SCAN_MS_MIN ∧
      (fix_now s now true kr admin).state.cooldown_until_ms = now + RECHECK_MS) ∧
    (∀ (q : AppState) (t : Nat) (f : Bool) (kr2 : Bool × String) (a2 : Bool),
      t < q.cooldown_until_ms →
      tick q t f kr2 a2 = { state := q, status := none, killed := false }) := by
  refine ⟨?_, ?_, ?_, ?_⟩
  · intro hc hb hm
    have hnc : ¬ now < s.cooldown_until_ms := by omega
    have hstate : (tick s now true kr admin).state =
        set_burst { s with fail_backoff_ms := 0 } now := by
      simp [tick, hnc, hb, hm, hk]
    rw [hstate]
    exact set_burst_spec { s with fail_backoff_ms := 0 } now
  · intro hm
    have hstate : (handle_detect s now true kr admin).state = set_burst s now := by
      simp [handle_detect, hm, hk]
    rw [hstate]
    exact set_burst_spec s now
  · have hstate : (fix_now s now true kr admin).state = set_burst s now := by
      simp [fix_now, hk]
    rw [hstate]
    exact set_burst_spec s now
  · intro q t f kr2 a2 ht
    exact tick_cooldown_noop q t f kr2 a2 ht

/-- Witness for the amended C3: a concrete successful kill at time 0,
followed by a tick at time 100 (inside the window) that is a no-op. -/
theorem burst_after_success_witness :
    ((tick (initState true) 0 true (true, "terminated") false).state.scan_interval = SCAN_MS_MIN) ∧
    (tick (tick (initState true) 0 true (true, "terminated") false).state
        100 false (true, "") false =
      { state := (tick (initState true) 0 true (true, "terminated") false).state,
        status := none, killed := false }) := by
  have h := burst_after_success (initState true) 0 (true, "terminated") false rfl
  have h1 := h.1 (by decide) rfl rfl
  exact ⟨h1.1, h.2.2.2 ((tick (initState true) 0 true (true, "terminated") false).state)
    100 false (true, "") false (by rw [h1.2]; decide)⟩

end PickerHost

namespace PickerHost

/-- Claim C4 counterexample: in a state whose cooldown deadline (1000) is
still in the future at time 0, a timer tick skips entirely while the
event-driven check probes and terminates — the two evaluations are not
the same transition. -/
theorem event_check_same_as_tick_cex :
    ((tick ⟨true, 2000, 0, 1000⟩ 0 true (true, "terminated") false).killed = false) ∧
    ((handle_detect ⟨true, 2000, 0, 1000⟩ 0 true (true, "terminated") false).killed = true) ∧
    (tick ⟨true, 2000, 0, 1000⟩ 0 true (true, "terminated") false ≠
      handle_detect ⟨true, 2000, 0, 1000⟩ 0 true (true, "terminated") false) := by
  decide

/-- Claim C4 as amended: the event-driven check is not gated like a timer
tick — it applies no cooldown or backoff check at all.  Whatever the
cooldown deadline and failure backoff, when monitoring is enabled it
probes immediately, invoking the terminator exactly when the target is
found, and on an absent target it resets the interval to normal
(`_set_quiet`) rather than growing it; when monitoring is disabled it
reports without probing and leaves the state unchanged. -/
theorem handle_detect_ungated (s : AppState) (now : Nat) (found : Bool)
    (kr : Bool × String) (admin : Bool) :
    (s.monitoring = true →
      ((handle_detect s now found kr admin).killed = found) ∧
      (found = false → (handle_detect s now found kr admin).state = set_quiet s)) ∧
    (s.monitoring = false →
      handle_detect s now found kr admin =
        { state := s,
          status := some ("PickerHost.exe detected (not killing)", "orange", "orange"),
          killed := false }) := by
  constructor
  · intro hm
    constructor
    · cases found with
      | false => simp [handle_detect, hm]
      | true =>
        cases hkr : kr.1 <;> simp [handle_detect, hm, hkr, set_fail_backoff]
    · intro hf
      subst hf
      simp [handle_detect, hm]
  · intro hm
    simp [handle_detect, hm]

/-- Witness for the amended C4: with a pending backoff of 5000 and a
cooldown deadline of 999999 — both of which would make a timer tick at
time 0 skip — the event-driven check still kills; and with monitoring
disabled it reports without touching the state. -/
theorem handle_detect_ungated_witness :
    ((handle_detect ⟨true, 2000, 5000, 999999⟩ 0 true (true, "terminated") false).killed = true) ∧
    (handle_detect ⟨false, 2000, 0, 0⟩ 0 true (true, "terminated") false =
      { state := ⟨false, 2000, 0, 0⟩,
        status := some ("PickerHost.exe detected (not killing)", "orange", "orange"),
        killed := false }) :=
  ⟨((handle_detect_ungated ⟨true, 2000, 5000, 999999⟩ 0 true (true, "terminated") false).1 rfl).1,
   (handle_detect_ungated ⟨false, 2000, 0, 0⟩ 0 true (true, "terminated") false).2 rfl⟩

/-- Claim C5 counterexample: with monitoring disabled and the target
present, the manual force-check still invokes the termination routine. -/
theorem monitoring_off_never_kills_cex :
    ((initState false).monitoring = false) ∧
    ((fix_now (initState false) 0 true (true, "terminated") false).killed = true) := by
  decide

/-- Claim C5 as amended: whenever the monitoring flag is false, timer
ticks and event-driven checks never invoke the termination routine
(detection is only reported) — but the manual force-check invokes it on a
present target regardless of the flag. -/
theorem monitoring_off_no_terminate (s : AppState) (now : Nat) (found : Bool)
    (kr : Bool × String) (admin : Bool) (hm : s.monitoring = false) :
    ((tick s now found kr admin).killed = false) ∧
    ((handle_detect s now found kr admin).killed = false) ∧
    (found = true → (fix_now s now found kr admin).killed = true) := by
  refine ⟨?_, ?_, ?_⟩
  · unfold tick
    split
    · rfl
    · split
      · rfl
      · dsimp only
        cases found with
        | false => simp
        | true => simp [hm, set_fail_backoff]
  · simp [handle_detect, hm]
  · intro hf
    subst hf
    cases hkr : kr.1 <;> simp [fix_now, hkr, set_fail_backoff]

/-- Witness for the amended C5: a concrete disabled state where the tick
and event check report only, but the force-check kills. -/
theorem monitoring_off_no_terminate_witness :
    ((tick ⟨false, 2000, 0, 0⟩ 0 true (true, "terminated") false).killed = false) ∧
    ((handle_detect ⟨false, 2000, 0, 0⟩ 0 true (true, "terminated") false).killed = false) ∧
    ((fix_now ⟨false, 2000, 0, 0⟩ 0 true (true, "terminated") false).killed = true) := by
  have h := monitoring_off_no_terminate ⟨false, 2000, 0, 0⟩ 0 true (true, "terminated") false rfl
  exact ⟨h.1, h.2.1, h.2.2 rfl⟩

/-- Claim C8 counterexample: a termination failure with outcome
"access denied" while already running as administrator is reported with
the generic kill-failure text, not the distinct actionable message. -/
theorem access_denied_message_cex :
    ((set_fail_backoff (initState true) "access denied" true).2 =
      ("Kill failed: access denied", "orange", "orange")) ∧
    ((set_fail_backoff (initState true) "access denied" true).2 ≠
      ("Access denied — try Run as Administrator", "orange", "orange")) := by
  constructor
  · rfl
  · decide

/-- Claim C8 as amended: whenever a termination attempt fails with an
access-denied outcome and the process is not already elevated
(`is_admin()` false), the reported status is the distinct actionable
message suggesting elevated privilege; when already elevated, the generic
kill-failure text is shown instead. -/
theorem access_denied_actionable (s : AppState) (how : String) (admin : Bool)
    (h1 : str_contains how "access denied" = true) (h2 : admin = false) :
    (set_fail_backoff s how admin).2 =
      ("Access denied — try Run as Administrator", "orange", "orange") := by
  simp [set_fail_backoff, fail_status, h1, h2]

/-- Witness for the amended C8: the exact "access denied" outcome without
elevation yields the actionable message. -/
theorem access_denied_actionable_witness :
    (set_fail_backoff (initState true) "access denied" false).2 =
      ("Access denied — try Run as Administrator", "orange", "orange") :=
  access_denied_actionable (initState true) "access denied" false rfl rfl

/-- Claim C9: the probe is total (it is a function); a failing whole
enumeration yields `none` (NotFound), and a per-process entry that raises
is skipped with the scan continuing over the rest. -/
theorem find_pickerhost_error_handling :
    (∀ tbl : Except Unit (List ProcEntry),
      tbl = Except.error () → find_pickerhost tbl = none) ∧
    (∀ (e : ProcEntry) (rest : List ProcEntry), (∃ u, e = Except.error u) →
      find_pickerhost (Except.ok (e :: rest)) = find_pickerhost (Except.ok rest)) := by
  constructor
  · intro tbl h
    subst h
    rfl
  · rintro e rest ⟨u, rfl⟩
    rfl

/-- Witness for C9: a failing enumeration returns `none`, and a raising
entry in front of a matching one is skipped so the match is still found. -/
theorem find_pickerhost_error_handling_witness :
    find_pickerhost (Except.error ()) = none ∧
    find_pickerhost (Except.ok [Except.error (), Except.ok (some "PickerHost.EXE")]) =
      find_pickerhost (Except.ok [Except.ok (some "PickerHost.EXE")]) :=
  ⟨find_pickerhost_error_handling.1 (Except.error ()) rfl,
   find_pickerhost_error_handling.2 (Except.error ()) [Except.ok (some "PickerHost.EXE")] ⟨(), rfl⟩⟩

/-- Claim C10: a manual force-check that finds the target absent resets
the poll interval to `SCAN_MS_NORMAL = 2000` whatever its previous value,
whereas a timer tick (gates passing) finding the target absent grows the
interval additively by `BACKOFF_STEP`, capped at `SCAN_MS_MAX`. -/
theorem fix_now_resets_interval (s : AppState) (now : Nat)
    (kr : Bool × String) (admin : Bool) :
    ((fix_now s now false kr admin).state.scan_interval = SCAN_MS_NORMAL) ∧
    (s.cooldown_until_ms ≤ now → s.fail_backoff_ms = 0 →
      (tick s now false kr admin).state.scan_interval =
        min SCAN_MS_MAX (s.scan_interval + BACKOFF_STEP)) := by
  constructor
  · simp [fix_now, set_quiet, apply_interval, SCAN_MS_MIN, SCAN_MS_MAX, SCAN_MS_NORMAL]
  · intro hc hb
    have hnc : ¬ now < s.cooldown_until_ms := by omega
    simp only [tick, hnc, if_false, hb, ne_eq, not_true_eq_false, false_and,
      grow_quiet, apply_interval, SCAN_MS_MIN, SCAN_MS_MAX, BACKOFF_STEP]
    simp only [Bool.false_eq_true, if_false]
    omega

/-- Witness for C10: a grown interval (15000) and the minimum interval
(400) both reset to 2000 under a manual check, while a tick at 14000
grows to 15000. -/
theorem fix_now_resets_interval_witness :
    ((fix_now ⟨true, 15000, 0, 0⟩ 0 false (true, "") false).state.scan_interval = SCAN_MS_NORMAL) ∧
    ((fix_now ⟨true, 400, 7, 9⟩ 0 false (true, "") false).state.scan_interval = SCAN_MS_NORMAL) ∧
    ((tick ⟨true, 14000, 0, 0⟩ 0 false (true, "") false).state.scan_interval =
      min SCAN_MS_MAX (14000 + BACKOFF_STEP)) := by
  refine ⟨(fix_now_resets_interval ⟨true, 15000, 0, 0⟩ 0 (true, "") false).1,
    (fix_now_resets_interval ⟨true, 400, 7, 9⟩ 0 (true, "") false).1,
    (fix_now_resets_interval ⟨true, 14000, 0, 0⟩ 0 (true, "") false).2 (by decide) rfl⟩

end PickerHost
